import Mathlib

/-! A shallow embedding of the PowerBI dashboard source configuration module
(`metadata-ingestion/src/datahub/ingestion/source/powerbi/config.py`): the
field schema with its defaults, the normalization pipeline (the PostgreSql
key-casing rewrite, the `dataset_type_mapping` / `server_to_platform_instance`
exclusivity guard, and the `workspace_id` backward-compatibility rule), and
the construction of a validated configuration value from a raw mapping.

Raw mappings are embedded as a record of `Option` fields (a missing key and
an explicit JSON `null` both read as `none`, which is exactly how the source
observes them through `values.get(...)`).  Python `dict`s are embedded as
ordered association lists with Python's first-match lookup, in-place update
and append-on-new-key semantics.  -/

deriving instance DecidableEq for Except

namespace PowerBi

/-- Python-dict lookup on an ordered association list: the value of the
first entry carrying the key. -/
def dictGet : List (String × α) → String → Option α
  | [], _ => none
  | (k, v) :: rest, key => if k = key then some v else dictGet rest key

/-- Python `key in d.keys()`. -/
def dictContainsKey : List (String × α) → String → Bool
  | [], _ => false
  | (k, _) :: rest, key => if k = key then true else dictContainsKey rest key

/-- Python `del d[key]`: drop the entries carrying the key. -/
def dictDel : List (String × α) → String → List (String × α)
  | [], _ => []
  | (k, v) :: rest, key =>
    if k = key then dictDel rest key else (k, v) :: dictDel rest key

/-- Replace the value of every entry carrying the key, keeping its position. -/
def dictUpdate : List (String × α) → String → α → List (String × α)
  | [], _, _ => []
  | (k, v0) :: rest, key, v =>
    if k = key then (key, v) :: dictUpdate rest key v
    else (k, v0) :: dictUpdate rest key v

/-- Python `d[key] = v`: update in place when the key is present (keeping its
position), otherwise append the new entry at the end. -/
def dictSet (m : List (String × α)) (key : String) (v : α) : List (String × α) :=
  if dictContainsKey m key then dictUpdate m key v else m ++ [(key, v)]

/-- Modelled from the spec: `AllowDenyPattern` comes from
`datahub.configuration.common`, which is outside this repository slice.  The
spec describes it as a pair of ordered sequences of regular-expression
strings with structural equality. -/
structure AllowDenyPattern where
  allow : List String
  deny : List String
deriving DecidableEq

/-- Modelled from the spec: the canonical allow-all default, an `allow` list
containing the single pattern `.*` and an empty `deny` list. -/
def AllowDenyPattern.allow_all : AllowDenyPattern :=
  { allow := [".*"], deny := [] }

/-- `PlatformDetail` (config.py lines 178-188): an optional platform
instance and an environment defaulting to `PROD`. -/
structure PlatformDetail where
  platform_instance : Option String
  env : String
deriving DecidableEq

/-- A value of the `dataset_type_mapping` dict, which the schema types as
`Union[Dict[str, str], Dict[str, PlatformDetail]]`. -/
inductive DTMValue
  | str (s : String)
  | detail (d : PlatformDetail)
deriving DecidableEq

/-- `Constant.PLATFORM_NAME` (config.py line 103). -/
def Constant.PLATFORM_NAME : String := "powerbi"

/-- Modelled from the spec: `builder.make_data_platform_urn` comes from
`datahub.emitter.mce_builder`, outside this repository slice; the spec says
`platformUrn` is derived from the fixed platform name, and the standard urn
form is used. -/
def make_data_platform_urn (platform : String) : String :=
  "urn:li:dataPlatform:" ++ platform

/-- `DataPlatformPair` (config.py lines 110-113). -/
structure DataPlatformPair where
  datahub_data_platform_name : String
  powerbi_data_platform_name : String
deriving DecidableEq

/-- The `SupportedDataPlatform` enum (config.py lines 116-141), in member
order. -/
def SupportedDataPlatform : List DataPlatformPair :=
  [ { powerbi_data_platform_name := "PostgreSQL", datahub_data_platform_name := "postgres" },
    { powerbi_data_platform_name := "Oracle", datahub_data_platform_name := "oracle" },
    { powerbi_data_platform_name := "Snowflake", datahub_data_platform_name := "snowflake" },
    { powerbi_data_platform_name := "Sql", datahub_data_platform_name := "mssql" },
    { powerbi_data_platform_name := "GoogleBigQuery", datahub_data_platform_name := "bigquery" },
    { powerbi_data_platform_name := "AmazonRedshift", datahub_data_platform_name := "redshift" } ]

/-- `default_for_dataset_type_mapping` (config.py lines 168-175): the dict
built from the enum in member order. -/
def default_for_dataset_type_mapping : List (String × DTMValue) :=
  SupportedDataPlatform.map
    (fun item => (item.powerbi_data_platform_name, DTMValue.str item.datahub_data_platform_name))

/-- The raw input mapping, restricted to the keys the schema declares.  A
field is `none` when the key is absent from the raw mapping (or explicitly
null, which the source never distinguishes). -/
structure RawConfig where
  platform_name : Option String := none
  platform_urn : Option String := none
  tenant_id : Option String := none
  workspace_id : Option String := none
  workspace_id_pattern : Option AllowDenyPattern := none
  dataset_type_mapping : Option (List (String × DTMValue)) := none
  server_to_platform_instance : Option (List (String × PlatformDetail)) := none
  client_id : Option String := none
  client_secret : Option String := none
  scan_timeout : Option Int := none
  extract_ownership : Option Bool := none
  extract_reports : Option Bool := none
  extract_lineage : Option Bool := none
  extract_endorsements_to_tags : Option Bool := none
  extract_workspaces_to_containers : Option Bool := none
  native_query_parsing : Option Bool := none
  convert_urns_to_lowercase : Option Bool := none
  convert_lineage_urns_to_lowercase : Option Bool := none
  admin_apis_only : Option Bool := none
  platform_instance : Option String := none
deriving DecidableEq

/-- The validated `PowerBiDashboardSourceConfig` value (the `values` dict
after field coercion and the root validators).  `workspace_id` is
`Option (Option String)`: `none` means the key was popped from the values
dict, `some v` means the key is present carrying `v`.  The opaque
`stateful_ingestion` passthrough is omitted. -/
structure Config where
  platform_name : String
  platform_urn : String
  tenant_id : String
  workspace_id : Option (Option String)
  workspace_id_pattern : AllowDenyPattern
  dataset_type_mapping : List (String × DTMValue)
  server_to_platform_instance : List (String × PlatformDetail)
  client_id : String
  client_secret : String
  scan_timeout : Int
  extract_ownership : Bool
  extract_reports : Bool
  extract_lineage : Bool
  extract_endorsements_to_tags : Bool
  extract_workspaces_to_containers : Bool
  native_query_parsing : Bool
  convert_urns_to_lowercase : Bool
  convert_lineage_urns_to_lowercase : Bool
  admin_apis_only : Bool
  platform_instance : Option String
deriving DecidableEq

/-- The errors construction can raise: the exclusivity conflict raised by
`raise_error_for_dataset_type_mapping`, and the missing-required-field
rejection produced by field validation (listing the absent required fields
in declaration order). -/
inductive ConfigError
  | conflict (msg : String)
  | missingRequired (fields : List String)
deriving DecidableEq

/-- The message of the `ValueError` raised by
`raise_error_for_dataset_type_mapping` (config.py lines 348-350). -/
def conflictMessage : String :=
  "dataset_type_mapping is deprecated. Use server_to_platform_instance only."

/-- `raise_error_for_dataset_type_mapping` (config.py lines 342-352): the
`pre=True` root validator; it observes the raw mapping, so schema defaults
are not yet filled in. -/
def raise_error_for_dataset_type_mapping (values : RawConfig) :
    Except ConfigError RawConfig :=
  if values.dataset_type_mapping.isSome && values.server_to_platform_instance.isSome then
    .error (.conflict conflictMessage)
  else .ok values

/-- `map_data_platform` (config.py lines 309-319): the `dataset_type_mapping`
field validator rewriting the legacy `PostgreSql` key to `PostgreSQL`. -/
def map_data_platform (value : List (String × DTMValue)) : List (String × DTMValue) :=
  match dictGet value "PostgreSql" with
  | some platform_name => dictSet (dictDel value "PostgreSql") "PostgreSQL" platform_name
  | none => value

/-- The required fields absent from a raw mapping, in declaration order
(`tenant_id`, then `client_id`, then `client_secret`). -/
def missing_required (raw : RawConfig) : List String :=
  (if raw.tenant_id.isNone then ["tenant_id"] else []) ++
  (if raw.client_id.isNone then ["client_id"] else []) ++
  (if raw.client_secret.isNone then ["client_secret"] else [])

/-- Field coercion once the three required fields are known: defaults are
filled in and the `dataset_type_mapping` field validator runs on a supplied
value (per-field validators do not run on defaults). -/
def coerce_fields (raw : RawConfig) (t ci cs : String) : Config :=
  { platform_name := raw.platform_name.getD Constant.PLATFORM_NAME
    platform_urn := raw.platform_urn.getD (make_data_platform_urn Constant.PLATFORM_NAME)
    tenant_id := t
    workspace_id := some raw.workspace_id
    workspace_id_pattern := raw.workspace_id_pattern.getD AllowDenyPattern.allow_all
    dataset_type_mapping :=
      match raw.dataset_type_mapping with
      | some v => map_data_platform v
      | none => default_for_dataset_type_mapping
    server_to_platform_instance := raw.server_to_platform_instance.getD []
    client_id := ci
    client_secret := cs
    scan_timeout := raw.scan_timeout.getD 60
    extract_ownership := raw.extract_ownership.getD false
    extract_reports := raw.extract_reports.getD true
    extract_lineage := raw.extract_lineage.getD true
    extract_endorsements_to_tags := raw.extract_endorsements_to_tags.getD false
    extract_workspaces_to_containers := raw.extract_workspaces_to_containers.getD true
    native_query_parsing := raw.native_query_parsing.getD true
    convert_urns_to_lowercase := raw.convert_urns_to_lowercase.getD false
    convert_lineage_urns_to_lowercase := raw.convert_lineage_urns_to_lowercase.getD true
    admin_apis_only := raw.admin_apis_only.getD false
    platform_instance := raw.platform_instance }

/-- Per-field validation: required fields must be present, everything else
is defaulted by `coerce_fields`. -/
def validate_fields (raw : RawConfig) : Except ConfigError Config :=
  match raw.tenant_id, raw.client_id, raw.client_secret with
  | some t, some ci, some cs => .ok (coerce_fields raw t ci cs)
  | _, _, _ => .error (.missingRequired (missing_required raw))

/-- Python truthiness of the `workspace_id` entry of the values dict: truthy
exactly when the key is present and carries a non-empty string. -/
def py_truthy : Option (Option String) → Bool
  | some (some s) => s != ""
  | _ => false

/-- The string carried by a truthy `workspace_id` entry. -/
def workspace_id_value : Option (Option String) → String
  | some (some s) => s
  | _ => ""

/-- `workspace_id_backward_compatibility` (config.py lines 321-340): the
`pre=False` root validator.  When the pattern is the allow-all default and
`workspace_id` is truthy, the pattern is rewritten to anchor the workspace
id; when the pattern is customized and `workspace_id` is truthy, the
`workspace_id` key is popped; otherwise the values pass through. -/
def workspace_id_backward_compatibility (values : Config) : Config :=
  if values.workspace_id_pattern = AllowDenyPattern.allow_all ∧
      py_truthy values.workspace_id = true then
    { values with
        workspace_id_pattern :=
          { allow := ["^" ++ workspace_id_value values.workspace_id ++ "$"], deny := [] } }
  else if values.workspace_id_pattern ≠ AllowDenyPattern.allow_all ∧
      py_truthy values.workspace_id = true then
    { values with workspace_id := none }
  else values

/-- Construction of a `PowerBiDashboardSourceConfig` from a raw mapping: the
`pre=True` root validator on the raw mapping, then per-field coercion and
validation, then the `pre=False` root validator. -/
def construct (raw : RawConfig) : Except ConfigError Config :=
  match raise_error_for_dataset_type_mapping raw with
  | .error e => .error e
  | .ok raw1 =>
    match validate_fields raw1 with
    | .error e => .error e
    | .ok values => .ok (workspace_id_backward_compatibility values)

/-- Serializing a constructed configuration back into a raw mapping: every
field of the values dict is present as supplied; a popped `workspace_id`
serializes as absent. -/
def configToRaw (c : Config) : RawConfig :=
  { platform_name := some c.platform_name
    platform_urn := some c.platform_urn
    tenant_id := some c.tenant_id
    workspace_id := c.workspace_id.join
    workspace_id_pattern := some c.workspace_id_pattern
    dataset_type_mapping := some c.dataset_type_mapping
    server_to_platform_instance := some c.server_to_platform_instance
    client_id := some c.client_id
    client_secret := some c.client_secret
    scan_timeout := some c.scan_timeout
    extract_ownership := some c.extract_ownership
    extract_reports := some c.extract_reports
    extract_lineage := some c.extract_lineage
    extract_endorsements_to_tags := some c.extract_endorsements_to_tags
    extract_workspaces_to_containers := some c.extract_workspaces_to_containers
    native_query_parsing := some c.native_query_parsing
    convert_urns_to_lowercase := some c.convert_urns_to_lowercase
    convert_lineage_urns_to_lowercase := some c.convert_lineage_urns_to_lowercase
    admin_apis_only := some c.admin_apis_only
    platform_instance := c.platform_instance }

/-- A raw mapping supplying only the three required fields. -/
def rawMin : RawConfig :=
  { tenant_id := some "tenant", client_id := some "client", client_secret := some "secret" }

/-- A raw mapping supplying both mutually exclusive fields. -/
def rawBoth : RawConfig :=
  { tenant_id := some "tenant", client_id := some "client", client_secret := some "secret",
    dataset_type_mapping := some [("Snowflake", DTMValue.str "snowflake")],
    server_to_platform_instance := some [("host:1433", { platform_instance := some "pi", env := "PROD" })] }

/-- A raw mapping missing `tenant_id` only. -/
def rawNoTenant : RawConfig :=
  { client_id := some "client", client_secret := some "secret" }

/-- A raw mapping missing `client_id` only. -/
def rawNoClientId : RawConfig :=
  { tenant_id := some "tenant", client_secret := some "secret" }

/-- A raw mapping missing `client_secret` only. -/
def rawNoClientSecret : RawConfig :=
  { tenant_id := some "tenant", client_id := some "client" }

/-- Required fields plus `workspace_id` set to the empty string. -/
def rawEmptyWorkspaceId : RawConfig :=
  { tenant_id := some "tenant", client_id := some "client", client_secret := some "secret",
    workspace_id := some "" }

/-- Required fields plus `workspace_id = "abc"`, pattern left unset. -/
def rawAbc : RawConfig :=
  { tenant_id := some "tenant", client_id := some "client", client_secret := some "secret",
    workspace_id := some "abc" }

/-- An explicit non-default workspace pattern. -/
def fooPattern : AllowDenyPattern := { allow := ["^foo.*"], deny := [] }

/-- Required fields plus a customized pattern and `workspace_id` set to the
empty string. -/
def rawEmptyWorkspaceIdCustomized : RawConfig :=
  { tenant_id := some "tenant", client_id := some "client", client_secret := some "secret",
    workspace_id := some "", workspace_id_pattern := some fooPattern }

/-- Required fields plus a customized pattern and `workspace_id = "abc"`. -/
def rawAbcCustomized : RawConfig :=
  { tenant_id := some "tenant", client_id := some "client", client_secret := some "secret",
    workspace_id := some "abc", workspace_id_pattern := some fooPattern }

/-- Required fields plus a user-supplied `platform_urn`. -/
def rawUserUrn : RawConfig :=
  { tenant_id := some "tenant", client_id := some "client", client_secret := some "secret",
    platform_urn := some "urn:li:dataPlatform:custom" }

/-- A `dataset_type_mapping` dict carrying the legacy `PostgreSql` key. -/
def dtmLegacy : List (String × DTMValue) := [("PostgreSql", DTMValue.str "x")]

/-- Required fields plus a `dataset_type_mapping` carrying the legacy
`PostgreSql` key. -/
def rawLegacyDtm : RawConfig :=
  { tenant_id := some "tenant", client_id := some "client", client_secret := some "secret",
    dataset_type_mapping := some dtmLegacy }

/-- A `dataset_type_mapping` dict carrying both the legacy `PostgreSql` key
and the canonical `PostgreSQL` key. -/
def dtmBothCasings : List (String × DTMValue) :=
  [("PostgreSql", DTMValue.str "x"), ("PostgreSQL", DTMValue.str "y")]

/-- A fully explicit configuration value with `workspace_id` present but
null (not truthy). -/
def cfgSample : Config :=
  { platform_name := "powerbi"
    platform_urn := "urn:li:dataPlatform:powerbi"
    tenant_id := "tenant"
    workspace_id := some none
    workspace_id_pattern := AllowDenyPattern.allow_all
    dataset_type_mapping := default_for_dataset_type_mapping
    server_to_platform_instance := []
    client_id := "client"
    client_secret := "secret"
    scan_timeout := 60
    extract_ownership := false
    extract_reports := true
    extract_lineage := true
    extract_endorsements_to_tags := false
    extract_workspaces_to_containers := true
    native_query_parsing := true
    convert_urns_to_lowercase := false
    convert_lineage_urns_to_lowercase := true
    admin_apis_only := false
    platform_instance := none }

/-! Association-list lemmas about the Python-dict operations. -/

theorem dictContainsKey_eq_isSome (m : List (String × α)) (k : String) :
    dictContainsKey m k = (dictGet m k).isSome := by
  induction m with
  | nil => rfl
  | cons p rest ih =>
    obtain ⟨k1, v1⟩ := p
    by_cases h : k1 = k <;> simp [dictContainsKey, dictGet, h, ih]

theorem dictGet_eq_none_of_not_contains (m : List (String × α)) (k : String)
    (h : dictContainsKey m k = false) : dictGet m k = none := by
  rw [dictContainsKey_eq_isSome] at h
  cases hg : dictGet m k with
  | none => rfl
  | some v => rw [hg] at h; simp at h

theorem dictGet_dictUpdate (m : List (String × α)) (k : String) (v : α)
    (h : dictContainsKey m k = true) :
    dictGet (dictUpdate m k v) k = some v := by
  induction m with
  | nil => simp [dictContainsKey] at h
  | cons p rest ih =>
    obtain ⟨k1, v1⟩ := p
    by_cases hk : k1 = k
    · simp [dictUpdate, dictGet, hk]
    · simp [dictContainsKey, hk] at h
      simp [dictUpdate, dictGet, hk, ih h]

theorem dictGet_append_new (m : List (String × α)) (k : String) (v : α)
    (h : dictContainsKey m k = false) : dictGet (m ++ [(k, v)]) k = some v := by
  induction m with
  | nil => simp [dictGet]
  | cons p rest ih =>
    obtain ⟨k1, v1⟩ := p
    by_cases hk : k1 = k
    · simp [dictContainsKey, hk] at h
    · simp [dictContainsKey, hk] at h
      simp [dictGet, hk, ih h]

theorem dictGet_dictSet_self (m : List (String × α)) (k : String) (v : α) :
    dictGet (dictSet m k v) k = some v := by
  unfold dictSet
  by_cases h : dictContainsKey m k = true
  · simp [h, dictGet_dictUpdate m k v h]
  · simp at h
    simp [h, dictGet_append_new m k v h]

theorem dictContainsKey_dictDel_self (m : List (String × α)) (k : String) :
    dictContainsKey (dictDel m k) k = false := by
  induction m with
  | nil => rfl
  | cons p rest ih =>
    obtain ⟨k1, v1⟩ := p
    by_cases hk : k1 = k <;> simp [dictDel, hk, dictContainsKey, ih]

theorem dictContainsKey_dictUpdate (m : List (String × α)) (key k : String) (v : α)
    (hne : key ≠ k) :
    dictContainsKey (dictUpdate m key v) k = dictContainsKey m k := by
  induction m with
  | nil => rfl
  | cons p rest ih =>
    obtain ⟨k1, v1⟩ := p
    by_cases hk : k1 = key
    · subst hk
      simp [dictUpdate, dictContainsKey, hne, ih]
    · simp [dictUpdate, dictContainsKey, hk, ih]

theorem dictContainsKey_append (m m' : List (String × α)) (k : String) :
    dictContainsKey (m ++ m') k = (dictContainsKey m k || dictContainsKey m' k) := by
  induction m with
  | nil => rfl
  | cons p rest ih =>
    obtain ⟨k1, v1⟩ := p
    by_cases hk : k1 = k <;> simp [dictContainsKey, hk, ih]

theorem dictContainsKey_dictSet_ne (m : List (String × α)) (key k : String) (v : α)
    (hne : key ≠ k) :
    dictContainsKey (dictSet m key v) k = dictContainsKey m k := by
  unfold dictSet
  by_cases h : dictContainsKey m key = true
  · simp [h, dictContainsKey_dictUpdate m key k v hne]
  · simp at h
    simp [h, dictContainsKey_append, dictContainsKey, hne]

/-! Lemmas about the normalization rules and the construction pipeline. -/

theorem map_data_platform_not_contains_legacy (v : List (String × DTMValue)) :
    dictContainsKey (map_data_platform v) "PostgreSql" = false := by
  unfold map_data_platform
  cases h : dictGet v "PostgreSql" with
  | none => rw [dictContainsKey_eq_isSome, h]; rfl
  | some pn =>
    rw [dictContainsKey_dictSet_ne _ _ _ _ (by decide)]
    exact dictContainsKey_dictDel_self v "PostgreSql"

theorem map_data_platform_idem (v : List (String × DTMValue)) :
    map_data_platform (map_data_platform v) = map_data_platform v := by
  conv_lhs => rw [map_data_platform]
  rw [dictGet_eq_none_of_not_contains _ _ (map_data_platform_not_contains_legacy v)]

theorem wbc_dataset_type_mapping (c : Config) :
    (workspace_id_backward_compatibility c).dataset_type_mapping =
      c.dataset_type_mapping := by
  unfold workspace_id_backward_compatibility
  split
  · rfl
  · split <;> rfl

theorem wbc_platform_urn (c : Config) :
    (workspace_id_backward_compatibility c).platform_urn = c.platform_urn := by
  unfold workspace_id_backward_compatibility
  split
  · rfl
  · split <;> rfl

theorem wbc_id_of_not_truthy (c : Config) (h : py_truthy c.workspace_id = false) :
    workspace_id_backward_compatibility c = c := by
  unfold workspace_id_backward_compatibility
  simp [h]

theorem wbc_workspace_id (c : Config) :
    (workspace_id_backward_compatibility c).workspace_id =
      if c.workspace_id_pattern ≠ AllowDenyPattern.allow_all ∧
          py_truthy c.workspace_id = true
      then none else c.workspace_id := by
  unfold workspace_id_backward_compatibility
  by_cases h1 : c.workspace_id_pattern = AllowDenyPattern.allow_all <;>
    by_cases h2 : py_truthy c.workspace_id = true <;> simp [h1, h2]

theorem construct_ok_elim (raw : RawConfig) (c : Config) (h : construct raw = .ok c) :
    ∃ t ci cs, raw.tenant_id = some t ∧ raw.client_id = some ci ∧
      raw.client_secret = some cs ∧
      c = workspace_id_backward_compatibility (coerce_fields raw t ci cs) := by
  unfold construct raise_error_for_dataset_type_mapping validate_fields at h
  by_cases hg :
      (raw.dataset_type_mapping.isSome && raw.server_to_platform_instance.isSome) = true
  · simp [hg] at h
  · simp only [Bool.not_eq_true] at hg
    simp only [hg, Bool.false_eq_true, if_false] at h
    cases ht : raw.tenant_id with
    | none => rw [ht] at h; simp at h
    | some t =>
      cases hci : raw.client_id with
      | none => rw [ht, hci] at h; simp at h
      | some ci =>
        cases hcs : raw.client_secret with
        | none => rw [ht, hci, hcs] at h; simp at h
        | some cs =>
          rw [ht, hci, hcs] at h
          simp at h
          exact ⟨t, ci, cs, rfl, rfl, rfl, h.symm⟩

/-! Claim theorems. -/

/-- C1: whenever the raw mapping has both `dataset_type_mapping` and
`server_to_platform_instance` explicitly present with non-null values,
construction fails with the conflict error whose message names both fields
and states the preferred one; and the check is on raw presence only, so a
raw mapping without `dataset_type_mapping` (which still gets the schema
default) never produces a conflict error. -/
theorem claim_C1 (raw : RawConfig) :
    ((raw.dataset_type_mapping.isSome && raw.server_to_platform_instance.isSome) = true →
      construct raw = .error (.conflict conflictMessage))
    ∧ (raw.dataset_type_mapping = none →
        ∀ e, construct raw ≠ .error (.conflict e))
    ∧ conflictMessage =
        "dataset_type_mapping is deprecated. Use server_to_platform_instance only." := by
  refine ⟨?_, ?_, rfl⟩
  · intro h
    unfold construct raise_error_for_dataset_type_mapping
    simp [h]
  · intro hn e
    unfold construct raise_error_for_dataset_type_mapping validate_fields
    simp only [hn, Option.isSome_none, Bool.false_and, Bool.false_eq_true, if_false]
    cases raw.tenant_id <;> cases raw.client_id <;> cases raw.client_secret <;> simp

/-- Witness for C1: the conflict fires on a raw mapping supplying both
exclusive fields and never fires when `dataset_type_mapping` is absent. -/
theorem claim_C1_witness :
    construct rawBoth = .error (.conflict conflictMessage)
    ∧ construct rawMin ≠ .error (.conflict conflictMessage) :=
  ⟨(claim_C1 rawBoth).1 rfl, (claim_C1 rawMin).2.1 rfl conflictMessage⟩

/-- C5: a supplied `dataset_type_mapping` carrying the legacy `PostgreSql`
key mapped to a value is normalized so that `PostgreSQL` maps to that value
and `PostgreSql` is gone; a mapping without the legacy key passes through the
rule unchanged. -/
theorem claim_C5 :
    (∀ (raw : RawConfig) (v : List (String × DTMValue)) (x : DTMValue),
      raw.dataset_type_mapping = some v →
      dictGet v "PostgreSql" = some x →
      (construct raw).isOk = true →
      (construct raw).map (fun c =>
          (dictGet c.dataset_type_mapping "PostgreSQL",
           dictContainsKey c.dataset_type_mapping "PostgreSql")) = .ok (some x, false))
    ∧ (∀ v : List (String × DTMValue),
        dictGet v "PostgreSql" = none → map_data_platform v = v) := by
  constructor
  · intro raw v x hv hx hok
    cases hc : construct raw with
    | error e => rw [hc] at hok; simp [Except.isOk, Except.toBool] at hok
    | ok c =>
      obtain ⟨t, ci, cs, ht, hci, hcs, rfl⟩ := construct_ok_elim raw c hc
      have hdtm :
          (workspace_id_backward_compatibility
              (coerce_fields raw t ci cs)).dataset_type_mapping = map_data_platform v := by
        rw [wbc_dataset_type_mapping]
        simp [coerce_fields, hv]
      simp only [Except.map, hdtm, Except.ok.injEq, Prod.mk.injEq]
      constructor
      · unfold map_data_platform
        rw [hx]
        exact dictGet_dictSet_self _ _ _
      · exact map_data_platform_not_contains_legacy v
  · intro v hv
    unfold map_data_platform
    rw [hv]

/-- Witness for C5: a raw mapping supplying `{"PostgreSql": "x"}` yields a
configuration whose mapping has `PostgreSQL` bound to `"x"` and no
`PostgreSql` key, and the default mapping (no legacy key) passes the rule
unchanged. -/
theorem claim_C5_witness :
    (construct rawLegacyDtm).map (fun c =>
        (dictGet c.dataset_type_mapping "PostgreSQL",
         dictContainsKey c.dataset_type_mapping "PostgreSql")) =
      .ok (some (DTMValue.str "x"), false)
    ∧ map_data_platform default_for_dataset_type_mapping =
        default_for_dataset_type_mapping :=
  ⟨claim_C5.1 rawLegacyDtm dtmLegacy (DTMValue.str "x") rfl (by decide) (by decide),
   claim_C5.2 default_for_dataset_type_mapping (by decide)⟩

/-- C8: a raw mapping supplying only the three required fields yields the
documented defaults for the nine boolean toggles and for `scan_timeout`. -/
theorem claim_C8 (t ci cs : String) :
    (construct
        { tenant_id := some t, client_id := some ci, client_secret := some cs }).map
      (fun c => (c.extract_ownership, c.extract_reports, c.extract_lineage,
        c.extract_endorsements_to_tags, c.extract_workspaces_to_containers,
        c.native_query_parsing, c.convert_urns_to_lowercase,
        c.convert_lineage_urns_to_lowercase, c.admin_apis_only, c.scan_timeout)) =
      .ok (false, true, true, false, true, true, false, true, false, 60) := by
  rfl

/-- C9: omitting exactly one of the required fields `tenant_id`,
`client_id`, `client_secret` (the others present, and no exclusivity
conflict) makes construction fail with the missing-required-field error
naming that field. -/
theorem claim_C9 (raw : RawConfig)
    (hg : (raw.dataset_type_mapping.isSome &&
      raw.server_to_platform_instance.isSome) = false) :
    (raw.tenant_id = none → raw.client_id.isSome = true →
      raw.client_secret.isSome = true →
      construct raw = .error (.missingRequired ["tenant_id"]))
    ∧ (raw.client_id = none → raw.tenant_id.isSome = true →
        raw.client_secret.isSome = true →
        construct raw = .error (.missingRequired ["client_id"]))
    ∧ (raw.client_secret = none → raw.tenant_id.isSome = true →
        raw.client_id.isSome = true →
        construct raw = .error (.missingRequired ["client_secret"])) := by
  refine ⟨?_, ?_, ?_⟩
  · intro h1 h2 h3
    cases hci : raw.client_id with
    | none => rw [hci] at h2; simp at h2
    | some ci =>
      cases hcs : raw.client_secret with
      | none => rw [hcs] at h3; simp at h3
      | some cs =>
        unfold construct raise_error_for_dataset_type_mapping validate_fields
          missing_required
        simp [hg, h1, hci, hcs]
  · intro h1 h2 h3
    cases ht : raw.tenant_id with
    | none => rw [ht] at h2; simp at h2
    | some t =>
      cases hcs : raw.client_secret with
      | none => rw [hcs] at h3; simp at h3
      | some cs =>
        unfold construct raise_error_for_dataset_type_mapping validate_fields
          missing_required
        simp [hg, h1, ht, hcs]
  · intro h1 h2 h3
    cases ht : raw.tenant_id with
    | none => rw [ht] at h2; simp at h2
    | some t =>
      cases hci : raw.client_id with
      | none => rw [hci] at h3; simp at h3
      | some ci =>
        unfold construct raise_error_for_dataset_type_mapping validate_fields
          missing_required
        simp [hg, h1, ht, hci]

/-- Witness for C9: each of the three one-field-missing raw mappings is
rejected with the error naming the absent field. -/
theorem claim_C9_witness :
    construct rawNoTenant = .error (.missingRequired ["tenant_id"])
    ∧ construct rawNoClientId = .error (.missingRequired ["client_id"])
    ∧ construct rawNoClientSecret = .error (.missingRequired ["client_secret"]) :=
  ⟨(claim_C9 rawNoTenant rfl).1 rfl rfl rfl,
   (claim_C9 rawNoClientId rfl).2.1 rfl rfl rfl,
   (claim_C9 rawNoClientSecret rfl).2.2 rfl rfl rfl⟩

/-- C2 counterexample: with the pattern unset and `workspace_id` supplied as
the empty string, construction succeeds but leaves the pattern at the
allow-all default instead of rewriting it to the anchored `"^$"` pattern
(the truthiness test in the source skips empty strings), so the claim fails
at `s = ""`. -/
theorem claim_C2_counterexample :
    (construct rawEmptyWorkspaceId).map (fun c => c.workspace_id_pattern) =
      .ok AllowDenyPattern.allow_all
    ∧ AllowDenyPattern.allow_all ≠
        { allow := ["^" ++ "" ++ "$"], deny := [] } := by
  decide

/-- C2 (amended): with the pattern unset and `workspace_id` supplied as a
NON-EMPTY string `s`, a successful construction has
`workspace_id_pattern = {allow := ["^" ++ s ++ "$"], deny := []}`. -/
theorem claim_C2 (raw : RawConfig) (s : String) (hs : s ≠ "")
    (hw : raw.workspace_id = some s) (hp : raw.workspace_id_pattern = none)
    (hok : (construct raw).isOk = true) :
    (construct raw).map (fun c => c.workspace_id_pattern) =
      .ok { allow := ["^" ++ s ++ "$"], deny := [] } := by
  cases hc : construct raw with
  | error e => rw [hc] at hok; simp [Except.isOk, Except.toBool] at hok
  | ok c =>
    obtain ⟨t, ci, cs, ht, hci, hcs, rfl⟩ := construct_ok_elim raw c hc
    have hpat :
        (workspace_id_backward_compatibility
            (coerce_fields raw t ci cs)).workspace_id_pattern =
          { allow := ["^" ++ s ++ "$"], deny := [] } := by
      unfold workspace_id_backward_compatibility
      simp [coerce_fields, hw, hp, py_truthy, workspace_id_value, hs]
    simp [Except.map, hpat]

/-- Witness for C2 (amended) at `workspace_id = "abc"`. -/
theorem claim_C2_witness :
    (construct rawAbc).map (fun c => c.workspace_id_pattern) =
      .ok { allow := ["^" ++ "abc" ++ "$"], deny := [] } :=
  claim_C2 rawAbc "abc" (by decide) rfl rfl (by decide)

/-- C3 counterexample: with the pattern unset and `workspace_id = "abc"`,
construction succeeds and the final object still carries `workspace_id`
with the value `"abc"` (case 1 of the backward-compatibility rule rewrites
the pattern but does not remove the key), so `workspace_id` does survive. -/
theorem claim_C3_counterexample :
    (construct rawAbc).isOk = true
    ∧ (construct rawAbc).map (fun c => c.workspace_id) = .ok (some (some "abc"))
    ∧ (construct rawAbc).map (fun c => c.workspace_id) ≠ .ok none := by
  decide

/-- C3 (amended): in a successful construction `workspace_id` is removed
from the final object exactly when the pattern was customized away from the
allow-all default AND `workspace_id` was supplied truthy (non-empty);
otherwise the key survives carrying exactly the raw value (null when it was
not supplied). -/
theorem claim_C3 (raw : RawConfig) (hok : (construct raw).isOk = true) :
    ((construct raw).map (fun c => c.workspace_id) = .ok none ↔
       raw.workspace_id_pattern.getD AllowDenyPattern.allow_all ≠
           AllowDenyPattern.allow_all
         ∧ py_truthy (some raw.workspace_id) = true)
    ∧ ((construct raw).map (fun c => c.workspace_id) = .ok none
        ∨ (construct raw).map (fun c => c.workspace_id) =
            .ok (some raw.workspace_id)) := by
  cases hc : construct raw with
  | error e => rw [hc] at hok; simp [Except.isOk, Except.toBool] at hok
  | ok c =>
    obtain ⟨t, ci, cs, ht, hci, hcs, rfl⟩ := construct_ok_elim raw c hc
    have hws :
        (workspace_id_backward_compatibility
            (coerce_fields raw t ci cs)).workspace_id =
          if raw.workspace_id_pattern.getD AllowDenyPattern.allow_all ≠
              AllowDenyPattern.allow_all
            ∧ py_truthy (some raw.workspace_id) = true
          then none else some raw.workspace_id := by
      rw [wbc_workspace_id]
      simp [coerce_fields]
    by_cases hcond :
        raw.workspace_id_pattern.getD AllowDenyPattern.allow_all ≠
            AllowDenyPattern.allow_all
          ∧ py_truthy (some raw.workspace_id) = true
    · simp [Except.map, hws, hcond]
    · simp [Except.map, hws, hcond]

/-- Witness for C3 (amended) at the minimal raw mapping: `workspace_id`
survives as a present-but-null entry. -/
theorem claim_C3_witness :
    ((construct rawMin).map (fun c => c.workspace_id) = .ok none ↔
       rawMin.workspace_id_pattern.getD AllowDenyPattern.allow_all ≠
           AllowDenyPattern.allow_all
         ∧ py_truthy (some rawMin.workspace_id) = true)
    ∧ ((construct rawMin).map (fun c => c.workspace_id) = .ok none
        ∨ (construct rawMin).map (fun c => c.workspace_id) =
            .ok (some rawMin.workspace_id)) :=
  claim_C3 rawMin (by decide)

/-- C4 counterexample: the pipeline is not idempotent on its own output.
The minimal raw mapping constructs successfully, but serializing the result
back to a raw mapping and constructing again fails with the exclusivity
conflict, because construction materializes defaults for both
`dataset_type_mapping` and `server_to_platform_instance` and the guard
tests raw presence. -/
theorem claim_C4_counterexample :
    (construct rawMin).isOk = true
    ∧ ((construct rawMin).map configToRaw).bind construct =
        .error (.conflict conflictMessage) := by
  decide

/-- C4 (amended): only a restricted idempotence holds. The PostgreSql
key-casing rewrite is idempotent; the workspace backward-compatibility rule
is idempotent whenever the values carry no truthy `workspace_id` (in
particular after it has popped the key, but not after its case-1 rewrite,
which retains a truthy `workspace_id`); and re-running the whole pipeline on
any serialized output always fails on the exclusivity guard. -/
theorem claim_C4 :
    (∀ v : List (String × DTMValue),
      map_data_platform (map_data_platform v) = map_data_platform v)
    ∧ (∀ c : Config, py_truthy c.workspace_id = false →
        workspace_id_backward_compatibility (workspace_id_backward_compatibility c) =
          workspace_id_backward_compatibility c)
    ∧ (∀ c : Config, (construct (configToRaw c)).isOk = false) := by
  refine ⟨map_data_platform_idem, ?_, ?_⟩
  · intro c h
    rw [wbc_id_of_not_truthy c h, wbc_id_of_not_truthy c h]
  · intro c
    rfl

/-- Witness for C4 (amended) at concrete inputs. -/
theorem claim_C4_witness :
    map_data_platform (map_data_platform dtmLegacy) = map_data_platform dtmLegacy
    ∧ workspace_id_backward_compatibility
        (workspace_id_backward_compatibility cfgSample) =
          workspace_id_backward_compatibility cfgSample
    ∧ (construct (configToRaw cfgSample)).isOk = false :=
  ⟨claim_C4.1 dtmLegacy, claim_C4.2.1 cfgSample (by decide), claim_C4.2.2 cfgSample⟩

/-- C6 counterexample: with a customized pattern and `workspace_id`
supplied as the empty string, construction succeeds but `workspace_id` is
NOT removed (the truthiness test skips empty strings), so the claim fails
at `s = ""`. -/
theorem claim_C6_counterexample :
    (construct rawEmptyWorkspaceIdCustomized).map (fun c => c.workspace_id) =
      .ok (some (some ""))
    ∧ (some (some "") : Option (Option String)) ≠ none := by
  decide

/-- C6 (amended): with a customized (non-default) pattern and a NON-EMPTY
`workspace_id`, a successful construction has the `workspace_id` key absent
and the pattern exactly as supplied. -/
theorem claim_C6 (raw : RawConfig) (s : String) (p : AllowDenyPattern)
    (hs : s ≠ "") (hw : raw.workspace_id = some s)
    (hp : raw.workspace_id_pattern = some p)
    (hpd : p ≠ AllowDenyPattern.allow_all)
    (hok : (construct raw).isOk = true) :
    (construct raw).map (fun c => (c.workspace_id, c.workspace_id_pattern)) =
      .ok (none, p) := by
  cases hc : construct raw with
  | error e => rw [hc] at hok; simp [Except.isOk, Except.toBool] at hok
  | ok c =>
    obtain ⟨t, ci, cs, ht, hci, hcs, rfl⟩ := construct_ok_elim raw c hc
    have h :
        workspace_id_backward_compatibility (coerce_fields raw t ci cs) =
          { coerce_fields raw t ci cs with workspace_id := none } := by
      unfold workspace_id_backward_compatibility
      simp [coerce_fields, hw, hp, hpd, py_truthy, hs]
    simp only [Except.map]
    rw [h]
    simp [coerce_fields, hp]

/-- Witness for C6 (amended) at `workspace_id = "abc"` and an explicit
`^foo.*` pattern. -/
theorem claim_C6_witness :
    (construct rawAbcCustomized).map (fun c => (c.workspace_id, c.workspace_id_pattern)) =
      .ok (none, fooPattern) :=
  claim_C6 rawAbcCustomized "abc" fooPattern (by decide) rfl rfl (by decide) (by decide)

/-- C7 counterexample: a user-supplied `platform_urn` is not ignored.
Construction succeeds and the resulting `platform_urn` equals the supplied
value, which differs from the value derived from the fixed platform name. -/
theorem claim_C7_counterexample :
    (construct rawUserUrn).isOk = true
    ∧ (construct rawUserUrn).map (fun c => c.platform_urn) =
        .ok "urn:li:dataPlatform:custom"
    ∧ "urn:li:dataPlatform:custom" ≠ make_data_platform_urn Constant.PLATFORM_NAME := by
  decide

/-- C7 (amended): a user-supplied `platform_urn` is accepted, not rejected
(supplying it never changes whether construction succeeds), and is used
as-is: a successful construction's `platform_urn` is the supplied value
when present, and only otherwise the value derived from the fixed platform
name. -/
theorem claim_C7 :
    (∀ raw : RawConfig, (construct raw).isOk = true →
      (construct raw).map (fun c => c.platform_urn) =
        .ok (raw.platform_urn.getD (make_data_platform_urn Constant.PLATFORM_NAME)))
    ∧ (∀ (raw : RawConfig) (u : String),
        (construct { raw with platform_urn := some u }).isOk = (construct raw).isOk) := by
  constructor
  · intro raw hok
    cases hc : construct raw with
    | error e => rw [hc] at hok; simp [Except.isOk, Except.toBool] at hok
    | ok c =>
      obtain ⟨t, ci, cs, ht, hci, hcs, rfl⟩ := construct_ok_elim raw c hc
      simp [Except.map, wbc_platform_urn, coerce_fields]
  · intro raw u
    unfold construct raise_error_for_dataset_type_mapping validate_fields
    by_cases hg :
        (raw.dataset_type_mapping.isSome && raw.server_to_platform_instance.isSome) = true
    · simp [hg]
    · simp only [Bool.not_eq_true] at hg
      simp only [hg, Bool.false_eq_true, if_false]
      rcases ht : raw.tenant_id with _ | t <;>
        rcases hci : raw.client_id with _ | ci <;>
        rcases hcs : raw.client_secret with _ | cs <;>
        simp [Except.isOk, Except.toBool]

/-- Witness for C7 (amended): the supplied urn comes back unchanged, and
supplying a urn does not affect success. -/
theorem claim_C7_witness :
    (construct rawUserUrn).map (fun c => c.platform_urn) =
      .ok (rawUserUrn.platform_urn.getD (make_data_platform_urn Constant.PLATFORM_NAME))
    ∧ (construct { rawMin with platform_urn := some "urn:li:dataPlatform:x" }).isOk =
        (construct rawMin).isOk :=
  ⟨claim_C7.1 rawUserUrn (by decide), claim_C7.2 rawMin "urn:li:dataPlatform:x"⟩

/-- C10: when the mapping carries both the legacy `PostgreSql` key (bound to
`x`) and the canonical `PostgreSQL` key (bound to `y`), the key-casing
rewrite leaves `PostgreSQL` bound to `x`: the legacy value silently
overwrites the pre-existing entry. -/
theorem claim_C10 (v : List (String × DTMValue)) (x y : DTMValue)
    (h1 : dictGet v "PostgreSql" = some x)
    (_h2 : dictGet v "PostgreSQL" = some y) :
    dictGet (map_data_platform v) "PostgreSQL" = some x := by
  unfold map_data_platform
  rw [h1]
  exact dictGet_dictSet_self _ _ _

/-- Witness for C10: with `PostgreSql ↦ "x"` and `PostgreSQL ↦ "y"` both
present, the normalized mapping binds `PostgreSQL` to `"x"`. -/
theorem claim_C10_witness :
    dictGet (map_data_platform dtmBothCasings) "PostgreSQL" =
      some (DTMValue.str "x") :=
  claim_C10 dtmBothCasings (DTMValue.str "x") (DTMValue.str "y")
    (by decide) (by decide)

end PowerBi

